import Mathlib

/-!
Shallow embedding of the data-extraction core of the `multibagger` repository
(`src/multibagger/data_extractor.py` and the CAGR routine of
`src/multibagger/financial_calculator.py`), together with proofs settling the
frozen claims about it.

Modelling conventions:
* A pandas cell is a `Cell`: missing/NaN (`pd.notna` false) is `Cell.empty`;
  typed numerics are `Cell.int`/`Cell.float` (ints exact, floats idealised as
  rationals); text is `Cell.text`; date-like objects carrying a `.year`
  attribute are `Cell.date y m d`; time-of-day objects (which have `strftime`
  but no `.year`) are `Cell.time`.
* Python `str` values are modelled as `List Char` so that every operation is
  structurally recursive and kernel-reducible.  Case folding is ASCII (the
  labels and sheet names handled by the program are ASCII).
* Python dicts keyed by year are association lists with dict semantics:
  inserting an existing key overwrites in place, a new key is appended.
* Machine floats are idealised as `ℚ` inside the extractor (which only copies
  and adds values) and as `ℝ` inside the CAGR computation.
-/

namespace Multibagger

/-- A single spreadsheet cell as seen through pandas. -/
inductive Cell where
  | empty : Cell
  | int : ℤ → Cell
  | float : ℚ → Cell
  | text : String → Cell
  | date : ℕ → ℕ → ℕ → Cell
  | time : Cell
deriving DecidableEq

/-! ### Character-level string machinery (Python `str` operations) -/

/-- ASCII lower-casing of one character, as Python `str.lower` does on ASCII. -/
def lowerChar (c : Char) : Char :=
  if 'A' ≤ c ∧ c ≤ 'Z' then Char.ofNat (c.toNat + 32) else c

/-- ASCII upper-casing of one character, as Python `str.upper` does on ASCII. -/
def upperChar (c : Char) : Char :=
  if 'a' ≤ c ∧ c ≤ 'z' then Char.ofNat (c.toNat - 32) else c

/-- Whitespace for Python `str.strip` / `str.split`. -/
def isSpaceChar (c : Char) : Bool :=
  c = ' ' ∨ c = '\t' ∨ c = '\n' ∨ c = '\r'

/-- Python `str.strip`: drop leading and trailing whitespace. -/
def trimChars (cs : List Char) : List Char :=
  ((cs.dropWhile isSpaceChar).reverse.dropWhile isSpaceChar).reverse

/-- `s.lower().strip()` applied to a modelled string. -/
def pyClean (cs : List Char) : List Char :=
  trimChars (cs.map lowerChar)

/-- Is `needle` a contiguous sublist of `hay`?  Models Python `needle in hay`
on strings (the empty needle is contained in everything). -/
def chHasSub (needle hay : List Char) : Bool :=
  needle.isPrefixOf hay ||
    match hay with
    | [] => false
    | _ :: t => chHasSub needle t

/-- Python `s.replace('-', ' ').split()`: split on whitespace runs, discarding
empty pieces (hyphens already mapped to spaces by the caller). -/
def splitWsAux (cur : List Char) : List Char → List (List Char)
  | [] => if cur.isEmpty then [] else [cur.reverse]
  | c :: rest =>
    if isSpaceChar c then
      if cur.isEmpty then splitWsAux [] rest else cur.reverse :: splitWsAux [] rest
    else splitWsAux (c :: cur) rest

def pyWords (cs : List Char) : List (List Char) :=
  splitWsAux [] (cs.map fun c => if c = '-' then ' ' else c)

/-! ### The year "regex" `\b(19|20)\d{2}\b` -/

def isDigitChar (c : Char) : Bool := '0' ≤ c && c ≤ '9'

/-- A `\w` character for the purposes of `\b` (ASCII). -/
def isWordCh (c : Char) : Bool := c.isAlpha || isDigitChar c || c = '_'

def digitVal (c : Char) : ℕ := c.toNat - '0'.toNat

/-- Leftmost match of `\b(19|20)\d{2}\b` in the remaining characters, given the
character immediately before them (`none` at the start of the string).  Returns
the matched 4-digit number, i.e. `int(match.group(0))`. -/
def yearScan (prev : Option Char) : List Char → Option ℕ
  | c1 :: c2 :: c3 :: c4 :: rest =>
    if prev.all (fun p => !isWordCh p) &&
        (((c1 = '1') && (c2 = '9')) || ((c1 = '2') && (c2 = '0'))) &&
        isDigitChar c3 && isDigitChar c4 &&
        rest.head?.all (fun n => !isWordCh n) then
      some (digitVal c1 * 1000 + digitVal c2 * 100 + digitVal c3 * 10 + digitVal c4)
    else
      yearScan (some c1) (c2 :: c3 :: c4 :: rest)
  | _ => none

/-- `re.search(r'\b(19|20)\d{2}\b', s)` succeeds. -/
def containsYearPat (cs : List Char) : Bool := (yearScan none cs).isSome

/-! ### Rendering cells to strings (Python `str(cell)`) -/

/-- Decimal digits of a natural number (structural on a fuel argument large
enough for every number occurring here). -/
def natDigitsAux : ℕ → ℕ → List Char
  | 0, _ => []
  | fuel + 1, n =>
    if n < 10 then [Char.ofNat (n + '0'.toNat)]
    else natDigitsAux fuel (n / 10) ++ [Char.ofNat (n % 10 + '0'.toNat)]

def natChars (n : ℕ) : List Char :=
  if n = 0 then ['0'] else natDigitsAux n n

def intChars (n : ℤ) : List Char :=
  if n < 0 then '-' :: natChars n.natAbs else natChars n.natAbs

/-- Fractional decimal digits of `num/den` (with `num < den`), fuel-bounded;
exact for the decimal-valued floats the workbooks contain. -/
def fracDigits : ℕ → ℕ → ℕ → List Char
  | 0, _, _ => []
  | fuel + 1, num, den =>
    if num = 0 ∨ den = 0 then []
    else Char.ofNat (num * 10 / den % 10 + '0'.toNat) :: fracDigits fuel (num * 10 % den) den

/-- Python `str` of a float, modelled for the decimal-valued rationals that
stand in for the workbook's floats (`str(2021.0) = "2021.0"`). -/
def floatChars (q : ℚ) : List Char :=
  let sign : List Char := if q < 0 then ['-'] else []
  let n := q.num.natAbs
  let d := q.den
  sign ++ natChars (n / d) ++ '.' ::
    (if n % d = 0 then ['0'] else fracDigits 20 (n % d) d)

/-- ISO date as produced by `cell.strftime('%Y-%m-%d')`. -/
def padChars (w : ℕ) (cs : List Char) : List Char :=
  List.replicate (w - cs.length) '0' ++ cs

def isoDateChars (y m d : ℕ) : List Char :=
  padChars 4 (natChars y) ++ '-' :: (padChars 2 (natChars m) ++ '-' :: padChars 2 (natChars d))

/-- Python `str(cell)` for the cell kinds the source stringifies.  A `datetime`
renders as `YYYY-MM-DD 00:00:00`; a bare time as `00:00:00`. -/
def cellChars : Cell → List Char
  | .empty => []
  | .int n => intChars n
  | .float q => floatChars q
  | .text s => s.data
  | .date y m d => isoDateChars y m d ++ (' ' :: "00:00:00".data)
  | .time => "00:00:00".data

/-! ### Sanity examples for kernel reducibility (concrete evaluations) -/

example : pyClean "  Net Sales ".data = "net sales".data := by decide
example : chHasSub "sales".data "net sales".data = true := by decide
example : containsYearPat "2021".data = true := by decide
example : containsYearPat "1899".data = false := by decide
example : yearScan none "FY 2031 x".data = some 2031 := by decide
example : containsYearPat "12019".data = false := by decide
example : cellChars (.int 2021) = "2021".data := by decide
example : cellChars (.float (mkRat 43 2)) = "21.5".data := by decide
example : pyWords "profit - after  tax".data = ["profit".data, "after".data, "tax".data] := by decide

/-! ### Year-indexed series with Python-dict semantics -/

/-- A metric series: year → value, insertion-ordered like a Python dict. -/
abbrev Series := List (ℕ × ℚ)

/-- `d[k] = v` on a Python dict: overwrite in place if the key exists,
append otherwise. -/
def dictInsert (d : Series) (k : ℕ) (v : ℚ) : Series :=
  if d.any (fun p => p.1 = k) then
    d.map (fun p => if p.1 = k then (k, v) else p)
  else d ++ [(k, v)]

/-- `d.get(k)` (as an option). -/
def dictGet? (d : Series) (k : ℕ) : Option ℚ :=
  (d.find? (fun p => p.1 = k)).map (fun p => p.2)

/-- `d.get(k, v₀)`. -/
def dictGetD (d : Series) (k : ℕ) (v₀ : ℚ) : ℚ :=
  (dictGet? d k).getD v₀

/-- The dict's key list, in insertion order. -/
def seriesKeys (d : Series) : List ℕ := d.map (fun p => p.1)

/-! ### Cell classification and value coercion -/

/-- The value a cell contributes to a metric series: only cells already typed
`int`/`float` (and non-NaN) count; everything else degrades to `0.0`
(`data_extractor.py` lines 183-192). -/
def cellSeriesValue : Cell → ℚ
  | .int n => (n : ℚ)
  | .float q => q
  | _ => 0

/-- `find_year_row`'s per-cell test (lines 82-93): a date-like cell with year
in `[1990, 2030]`, or an `int`/`float`/`str` cell whose string form matches
`\b(19|20)\d{2}\b`.  Missing cells and time-of-day cells are skipped. -/
def yearLikeCell : Cell → Bool
  | .empty => false
  | .date y _ _ => decide (1990 ≤ y ∧ y ≤ 2030)
  | .time => false
  | .int n => containsYearPat (intChars n)
  | .float q => containsYearPat (floatChars q)
  | .text s => containsYearPat s.data

/-- `extract_years`'s per-cell result (lines 110-124): a date-like cell yields
its year when in range; any other non-missing cell is stringified and the
first `\b(19|20)\d{2}\b` match is taken, again subject to the range check. -/
def cellYear : Cell → Option ℕ
  | .empty => none
  | .date y _ _ => if 1990 ≤ y ∧ y ≤ 2030 then some y else none
  | c => (yearScan none (cellChars c)).bind
      (fun y => if 1990 ≤ y ∧ y ≤ 2030 then some y else none)

/-! ### Sheets, header-row location, label matching -/

/-- A sheet as pandas presents it: the column headers (stringified) and the
data rows. -/
structure Sheet where
  cols : List String
  rows : List (List Cell)
deriving DecidableEq

/-- A workbook: ordered mapping sheet name → sheet. -/
abbrev Workbook := List (String × Sheet)

/-- Number of year-like cells in a row. -/
def yearCellCount (row : List Cell) : ℕ := row.countP yearLikeCell

/-- `find_year_row` (lines 79-97): first row with at least 3 year-like cells. -/
def find_year_row (rows : List (List Cell)) : Option ℕ :=
  rows.findIdx? (fun r => 3 ≤ yearCellCount r)

/-- `extract_years` (lines 99-125): collect in-range years from the row,
duplicates kept, then sort. -/
def extract_years (row : List Cell) : List ℕ :=
  List.insertionSort (· ≤ ·) (row.filterMap cellYear)

/-- The fixed stopword vocabulary of the token-overlap tier (line 158). -/
def fillerWords : Finset (List Char) :=
  { "from".data, "to".data, "the".data, "and".data, "or".data, "of".data,
    "in".data, "for".data, "with".data, "total".data }

/-- Does the first cell of `row` match the (already cleaned) label under any of
the three tiers of `find_row_by_label` (lines 140-164): exact equality,
substring containment either way, or token overlap of size
`≥ min(len(label_words), 2)` after stopword removal? -/
def rowMatchesLabel (lab : List Char) (row : List Cell) : Bool :=
  match row.head? with
  | none => false
  | some .empty => false
  | some c =>
    let cs := pyClean (cellChars c)
    lab = cs ||
    (chHasSub lab cs || chHasSub cs lab) ||
    (let cw := (pyWords cs).toFinset \ fillerWords
     let lw := (pyWords lab).toFinset \ fillerWords
     !decide (lw = ∅) && !decide (cw = ∅) && decide (min lw.card 2 ≤ (lw ∩ cw).card))

/-- `find_row_by_label` (lines 127-166): first row whose first-column text
matches the cleaned label under any tier. -/
def find_row_by_label (rows : List (List Cell)) (label : String) : Option ℕ :=
  rows.findIdx? (rowMatchesLabel (pyClean label.data))

/-- `_find_sheet_by_name` (lines 600-615): first sheet whose lower-cased name
contains any keyword. -/
def find_sheet_by_name (wb : Workbook) (keywords : List String) : Option Sheet :=
  (wb.find? (fun p =>
    keywords.any (fun k => chHasSub (k.data.map lowerChar) (p.1.data.map lowerChar)))).map
    (fun p => p.2)

/-! ### Row-value extraction -/

/-- Value of column `i + 1` of a data row (`row.iloc[i+1]` with the
out-of-range and non-numeric defaults of lines 183-192). -/
def rowValueAt (row : List Cell) (i : ℕ) : ℚ :=
  if i + 1 < row.length then cellSeriesValue (row.getD (i + 1) .empty) else 0

/-- `extract_numeric_values` (lines 168-193): build the year → value dict,
position `i` of the (sorted) year list reading column `i + 1`. -/
def extract_numeric_values (row : List Cell) (years : List ℕ) : Series :=
  (years.enum).foldl (fun d p => dictInsert d p.2 (rowValueAt row p.1)) []

/-- `{year: 0.0 for year in years}`. -/
def zeroSeries (years : List ℕ) : Series :=
  years.foldl (fun d y => dictInsert d y 0) []

/-! ### Metric synonym tables -/

def salesTerms : List String := ["sales", "revenue", "total revenue", "net sales"]
def operatingProfitTerms : List String := ["operating profit", "ebit", "operating income"]
def netProfitTerms : List String := ["net profit", "net income", "profit after tax", "pat"]
def epsTerms : List String := ["eps", "earnings per share"]
def dividendTerms : List String := ["dividend", "dividend per share", "dps"]

def totalEquityTerms : List String :=
  ["total equity", "shareholders equity", "equity", "equity share capital"]
def totalDebtTerms : List String := ["total debt", "total borrowings", "debt", "borrowings"]
def currentAssetsTerms : List String :=
  ["current assets", "current asset", "working capital", "debtors", "inventory"]
def currentLiabilitiesTerms : List String :=
  ["current liabilities", "current liability", "other liabilities"]
def fixedAssetsTerms : List String :=
  ["fixed assets", "property plant equipment", "ppe", "net block", "gross block",
   "capital work in progress"]
def totalAssetsTerms : List String := ["total assets"]

def ocfTerms : List String :=
  ["operating cash flow", "cash from operations", "ocf", "cash from operating activity",
   "operating activity"]
def capexTerms : List String :=
  ["capex", "capital expenditure", "investments", "cash from investing activity",
   "investing activity", "capital expenditures"]
def fcfTerms : List String :=
  ["financing cash flow", "cash from financing", "cash from financing activity",
   "financing activity"]

/-! ### Profit & Loss extraction (lines 195-241): no used-row tracking -/

/-- The row chosen for a metric in the P&L pass (lines 229-235): the first
synonym term that matches any row, with no exclusion of already-used rows. -/
def plRowChoice (rows : List (List Cell)) (terms : List String) : Option ℕ :=
  terms.findSome? (find_row_by_label rows)

/-- One P&L metric (lines 227-239): values of the chosen row, or an all-zero
dict over the year axis if no term matched. -/
def plMetric (rows : List (List Cell)) (years : List ℕ) (terms : List String) : Series :=
  match plRowChoice rows terms with
  | some i => extract_numeric_values (rows.getD i []) years
  | none => zeroSeries years

structure PLData where
  years : List ℕ
  sales : Series
  operating_profit : Series
  net_profit : Series
  eps : Series
  dividend : Series
deriving DecidableEq

def plKeywords : List String := ["profit", "p&l", "pl", "income"]

/-- `extract_from_profit_loss_sheet` (lines 195-241); `none` models the empty
dict returned when the sheet or its year row is missing. -/
def extract_from_profit_loss_sheet (wb : Workbook) : Option PLData :=
  match find_sheet_by_name wb plKeywords with
  | none => none
  | some sheet =>
    match find_year_row sheet.rows with
    | none => none
    | some yi =>
      let years := extract_years (sheet.rows.getD yi [])
      some
        { years := years
          sales := plMetric sheet.rows years salesTerms
          operating_profit := plMetric sheet.rows years operatingProfitTerms
          net_profit := plMetric sheet.rows years netProfitTerms
          eps := plMetric sheet.rows years epsTerms
          dividend := plMetric sheet.rows years dividendTerms }

/-! ### Used-row tracking passes (balance sheet, cash flow; lines 277-298) -/

/-- Row chosen for a metric under used-row tracking: for each term in order,
if the term's first matching row is unused take it, if it is already used skip
to the next term (lines 282-294). -/
def pickRow (rows : List (List Cell)) (used : List ℕ) : List String → Option ℕ
  | [] => none
  | t :: ts =>
    match find_row_by_label rows t with
    | some i => if i ∈ used then pickRow rows used ts else some i
    | none => pickRow rows used ts

/-- The row assignment a used-row-tracking pass makes for a list of metrics,
threading the `used_rows` set. -/
def assignRowsUsed (rows : List (List Cell)) :
    List (String × List String) → List ℕ → List (String × Option ℕ)
  | [], _ => []
  | m :: ms, used =>
    match pickRow rows used m.2 with
    | some i => (m.1, some i) :: assignRowsUsed rows ms (i :: used)
    | none => (m.1, none) :: assignRowsUsed rows ms used

/-- One metric of a used-row-tracking pass: the chosen row's values (marking
the row used) or an all-zero dict. -/
def usedMetric (rows : List (List Cell)) (years : List ℕ) (used : List ℕ)
    (terms : List String) : Series × List ℕ :=
  match pickRow rows used terms with
  | some i => (extract_numeric_values (rows.getD i []) years, i :: used)
  | none => (zeroSeries years, used)

structure BSData where
  years : List ℕ
  total_equity : Series
  total_debt : Series
  current_assets : Series
  current_liabilities : Series
  fixed_assets : Series
  total_assets : Series
deriving DecidableEq

def bsKeywords : List String := ["balance", "bs", "balance sheet"]

/-- The recomputed `total_assets` candidate series (lines 303-325): per year,
`method2 = total_debt + total_equity` if it is positive and exceeds
`method1 = current_assets + fixed_assets`, else `method1` if positive,
else `0.0`. -/
def calcTotalAssets (years : List ℕ) (ca fa td te : Series) : Series :=
  years.foldl
    (fun d y =>
      let m1 := dictGetD ca y 0 + dictGetD fa y 0
      let m2 := dictGetD td y 0 + dictGetD te y 0
      dictInsert d y (if 0 < m2 ∧ m1 < m2 then m2 else if 0 < m1 then m1 else 0))
    []

/-- The substitution step (lines 301-331): when `total_assets` is all-zero,
replace it by the recomputed series provided some recomputed value is
positive. -/
def applyTotalAssetsFix (bs : BSData) : BSData :=
  if bs.total_assets.all (fun p => decide (p.2 = 0)) then
    if (calcTotalAssets bs.years bs.current_assets bs.fixed_assets bs.total_debt
        bs.total_equity).any (fun p => decide (0 < p.2)) then
      { bs with total_assets := (calcTotalAssets bs.years bs.current_assets bs.fixed_assets
          bs.total_debt bs.total_equity) }
    else bs
  else bs

/-- `extract_from_balance_sheet` (lines 243-333). -/
def extract_from_balance_sheet (wb : Workbook) : Option BSData :=
  match find_sheet_by_name wb bsKeywords with
  | none => none
  | some sheet =>
    match find_year_row sheet.rows with
    | none => none
    | some yi =>
      let years := extract_years (sheet.rows.getD yi [])
      let s1 := usedMetric sheet.rows years [] totalEquityTerms
      let s2 := usedMetric sheet.rows years s1.2 totalDebtTerms
      let s3 := usedMetric sheet.rows years s2.2 currentAssetsTerms
      let s4 := usedMetric sheet.rows years s3.2 currentLiabilitiesTerms
      let s5 := usedMetric sheet.rows years s4.2 fixedAssetsTerms
      let s6 := usedMetric sheet.rows years s5.2 totalAssetsTerms
      some (applyTotalAssetsFix
        { years := years
          total_equity := s1.1
          total_debt := s2.1
          current_assets := s3.1
          current_liabilities := s4.1
          fixed_assets := s5.1
          total_assets := s6.1 })

structure CFData where
  years : List ℕ
  operating_cash_flow : Series
  capex : Series
  financing_cash_flow : Series
  free_cash_flow : Series
deriving DecidableEq

def cfKeywords : List String := ["cash flow", "cf", "cashflow"]

/-- `free_cash_flow` (lines 389-395): per year
`ocf.get(y, 0) - abs(capex.get(y, 0))`. -/
def calcFreeCashFlow (years : List ℕ) (ocf capex : Series) : Series :=
  years.foldl (fun d y => dictInsert d y (dictGetD ocf y 0 - |dictGetD capex y 0|)) []

/-- `extract_from_cash_flow_sheet` (lines 335-412); the identical-series
validation is log-only and does not affect the result. -/
def extract_from_cash_flow_sheet (wb : Workbook) : Option CFData :=
  match find_sheet_by_name wb cfKeywords with
  | none => none
  | some sheet =>
    match find_year_row sheet.rows with
    | none => none
    | some yi =>
      let years := extract_years (sheet.rows.getD yi [])
      let s1 := usedMetric sheet.rows years [] ocfTerms
      let s2 := usedMetric sheet.rows years s1.2 capexTerms
      let s3 := usedMetric sheet.rows years s2.2 fcfTerms
      some
        { years := years
          operating_cash_flow := s1.1
          capex := s2.1
          financing_cash_flow := s3.1
          free_cash_flow := calcFreeCashFlow years s1.1 s2.1 }

/-! ### Quarters extraction (lines 414-539) -/

/-- `re.search(r'Q[1-4]', s)` on an (already upper-cased) string. -/
def hasQTag : List Char → Bool
  | [] => false
  | 'Q' :: c :: rest => (c = '1' || c = '2' || c = '3' || c = '4') || hasQTag (c :: rest)
  | _ :: rest => hasQTag rest

/-- The quarter-header test on a stringified, upper-cased cell (line 462). -/
def quarterHeadTag (cs : List Char) : Bool :=
  hasQTag cs || chHasSub "MAR".data cs || chHasSub "JUN".data cs ||
    chHasSub "SEP".data cs || chHasSub "DEC".data cs

/-- Placeholder quarter-end date for malformed time-only cells
(lines 444-459): 4-quarters-per-year cycle starting at 2020. -/
def quarterPlaceholder (k : ℕ) : List Char :=
  let y := padChars 4 (natChars (2020 + k / 4))
  match k % 4 with
  | 0 => y ++ "-03-31".data
  | 1 => y ++ "-06-30".data
  | 2 => y ++ "-09-30".data
  | _ => y ++ "-12-31".data

/-- The quarter labels one row yields (lines 433-464): date-like cells with a
meaningful year render as ISO dates, other `strftime`-bearing cells get a
synthesized placeholder, and strings count when they carry a quarter token.
The row's quarter count is the length of this list. -/
def rowQuarters (row : List Cell) : List (List Char) :=
  row.foldl
    (fun acc c =>
      match c with
      | .empty => acc
      | .date y m d =>
        if 1900 < y then acc ++ [isoDateChars y m d]
        else acc ++ [quarterPlaceholder acc.length]
      | .time => acc ++ [quarterPlaceholder acc.length]
      | c' =>
        let s := (cellChars c').map upperChar
        if quarterHeadTag s then acc ++ [s] else acc)
    []

/-- First row with at least 4 quarter-like cells (line 466). -/
def find_quarter_row (rows : List (List Cell)) : Option ℕ :=
  rows.findIdx? (fun r => 4 ≤ (rowQuarters r).length)

/-- Quarterly values of a data row (lines 491-503): one value per quarter
position, degrading to `0.0` exactly as the annual extractor does. -/
def quarterValues (row : List Cell) (n : ℕ) : List ℚ :=
  (List.range n).map (rowValueAt row)

def qRevenueTerms : List String := ["sales", "revenue", "total revenue"]
def qNetProfitTerms : List String := ["net profit", "net income", "profit after tax"]

/-- One quarterly metric (lines 486-511): no used-row tracking. -/
def qMetric (rows : List (List Cell)) (n : ℕ) (terms : List String) : List ℚ :=
  match terms.findSome? (find_row_by_label rows) with
  | some i => quarterValues (rows.getD i []) n
  | none => List.replicate n 0

structure QuartersData where
  quarters : List (List Char)
  revenue : List ℚ
  net_profit : List ℚ
deriving DecidableEq

def qKeywords : List String := ["quarters", "quarterly", "q"]

/-- `extract_from_quarters_sheet` (lines 414-539); the all-zero data-quality
checks are log-only. -/
def extract_from_quarters_sheet (wb : Workbook) : Option QuartersData :=
  match find_sheet_by_name wb qKeywords with
  | none => none
  | some sheet =>
    match find_quarter_row sheet.rows with
    | none => none
    | some qi =>
      let quarters := rowQuarters (sheet.rows.getD qi [])
      some
        { quarters := quarters
          revenue := qMetric sheet.rows quarters.length qRevenueTerms
          net_profit := qMetric sheet.rows quarters.length qNetProfitTerms }

/-! ### Data sheet extraction (lines 541-647) -/

/-- `float(str)` for finite decimal / exponent literals (sign, digits, optional
fraction, optional exponent); `inf`/`nan` and digit underscores are not
modelled — the sheets' numeric strings are plain decimals. -/
def digitsVal (ds : List Char) : ℕ := ds.foldl (fun a c => a * 10 + digitVal c) 0

def parseMant (cs : List Char) : Option (ℕ × ℕ × List Char) :=
  let ip := cs.takeWhile isDigitChar
  let r1 := cs.dropWhile isDigitChar
  match r1 with
  | '.' :: t =>
    let fp := t.takeWhile isDigitChar
    let r2 := t.dropWhile isDigitChar
    if ip.isEmpty && fp.isEmpty then none
    else some (digitsVal (ip ++ fp), fp.length, r2)
  | _ => if ip.isEmpty then none else some (digitsVal ip, 0, r1)

def parseExp : List Char → Option ℤ
  | [] => some 0
  | e :: t =>
    if e = 'e' ∨ e = 'E' then
      let st : ℤ × List Char :=
        match t with
        | '+' :: u => (1, u)
        | '-' :: u => (-1, u)
        | _ => (1, t)
      let ds := st.2.takeWhile isDigitChar
      let r := st.2.dropWhile isDigitChar
      if ds.isEmpty ∨ ¬r.isEmpty then none else some (st.1 * digitsVal ds)
    else none

def pyFloatParse (cs0 : List Char) : Option ℚ :=
  let cs := trimChars cs0
  let sc : ℤ × List Char :=
    match cs with
    | '+' :: t => (1, t)
    | '-' :: t => (-1, t)
    | _ => (1, cs)
  match parseMant sc.2 with
  | none => none
  | some (mant, flen, rest) =>
    match parseExp rest with
    | none => none
    | some e =>
      if 0 ≤ e then some (mkRat (sc.1 * mant * (10 ^ e.toNat : ℕ)) (10 ^ flen))
      else some (mkRat (sc.1 * mant) (10 ^ flen * 10 ^ (-e).toNat))

/-- Python `float(cell)` as used at line 580: numeric cells coerce, numeric
strings parse, date/time cells raise `TypeError` (caught by the caller, hence
`none`), missing cells are skipped by the `pd.notna` guard. -/
def cellFloat : Cell → Option ℚ
  | .empty => none
  | .int n => some (n : ℚ)
  | .float q => some q
  | .text s => pyFloatParse s.data
  | .date _ _ _ => none
  | .time => none

/-- Scan up to 4 cells right of a matched label row (lines 575-584): the first
cell parseable as a float wins. -/
def extractFieldFromRow (row : List Cell) : Option ℚ :=
  (List.range' 1 (min row.length 5 - 1)).findSome? (fun i => cellFloat (row.getD i .empty))

/-- One scalar company field (lines 569-591): try each synonym term, and for a
term whose label row is found, take the first parseable adjacent cell; a term
with no parseable cell falls through to the next term; default `0.0`. -/
def fieldValue (sheet : Sheet) (terms : List String) : ℚ :=
  (terms.findSome? (fun t =>
    (find_row_by_label sheet.rows t).bind
      (fun i => extractFieldFromRow (sheet.rows.getD i [])))).getD 0

def priceTerms : List String := ["price", "current price", "share price", "cmp"]
def marketCapTerms : List String := ["market cap", "market capitalization", "mcap"]
def faceValueTerms : List String := ["face value", "fv", "par value"]
def sharesTerms : List String :=
  ["shares", "outstanding shares", "shares outstanding", "number of shares"]

def nameMarkers : List String := ["LTD", "LIMITED", "INC", "CORP", "COMPANY", "INFORMATICS"]

/-- Company-name test on one column header (lines 631-641). -/
def colCompanyName (col : String) : Option String :=
  let s := trimChars col.data
  if "Unnamed:".data.isPrefixOf s || decide (s = "SCREENER.IN".data) ||
      decide (s = "Narration".data) then none
  else if 5 < s.length &&
      nameMarkers.any (fun m => chHasSub m.data (s.map upperChar)) then
    some (String.mk s)
  else none

/-- `_extract_company_name_from_headers` (lines 617-647): scan every
non-customization sheet's column headers, first hit wins. -/
def companyNameFromHeaders (wb : Workbook) : Option String :=
  wb.findSome? (fun p =>
    if chHasSub "custom".data (p.1.data.map lowerChar) then none
    else p.2.cols.findSome? colCompanyName)

structure DataInfo where
  company_name : String
  current_price : ℚ
  market_cap : ℚ
  face_value : ℚ
  outstanding_shares : ℚ
deriving DecidableEq

def dataKeywords : List String := ["data", "company", "info", "summary"]

/-- `extract_from_data_sheet` (lines 541-598). -/
def extract_from_data_sheet (wb : Workbook) : Option DataInfo :=
  match find_sheet_by_name wb dataKeywords with
  | none => none
  | some sheet =>
    some
      { company_name := (companyNameFromHeaders wb).getD "Unknown Company"
        current_price := fieldValue sheet priceTerms
        market_cap := fieldValue sheet marketCapTerms
        face_value := fieldValue sheet faceValueTerms
        outstanding_shares := fieldValue sheet sharesTerms }

/-! ### Orchestrator (lines 36-67 and 649-669) -/

structure Document where
  company_info : Option DataInfo
  profit_loss : Option PLData
  balance_sheet : Option BSData
  cash_flow : Option CFData
  quarterly : Option QuartersData
deriving DecidableEq

/-- `load_workbook` (lines 36-67).  File-system failure (missing, unreadable,
permission denied) is modelled as `none` input; a workbook with no sheets also
fails.  `none` output models the `False` return. -/
def load_workbook (file : Option Workbook) : Option Workbook :=
  match file with
  | none => none
  | some sheets => if sheets.isEmpty then none else some sheets

/-- `extract_all_data` (lines 649-669); `none` models the empty document
returned when loading fails.  The wall-clock extraction timestamp is not
modelled. -/
def extract_all_data (file : Option Workbook) : Option Document :=
  match load_workbook file with
  | none => none
  | some wb =>
    some
      { company_info := extract_from_data_sheet wb
        profit_loss := extract_from_profit_loss_sheet wb
        balance_sheet := extract_from_balance_sheet wb
        cash_flow := extract_from_cash_flow_sheet wb
        quarterly := extract_from_quarters_sheet wb }

/-! ### CAGR (`financial_calculator.py` lines 46-80) -/

/-- `sorted(values.keys())`, then the `[-years:]` restriction (`years = 0` is
falsy in Python, so it leaves the list untouched, as does `[-0:]`). -/
def cagrSortedYears (values : Series) (yp : Option ℕ) : List ℕ :=
  let sy := List.insertionSort (· ≤ ·) (values.map (fun p => p.1))
  match yp with
  | none => sy
  | some n => if n = 0 then sy else sy.drop (sy.length - n)

/-- `values[sorted_years[0]]` (the chronologically first value in play). -/
def cagrStart (values : Series) (yp : Option ℕ) : ℚ :=
  dictGetD values ((cagrSortedYears values yp).headD 0) 0

/-- `values[sorted_years[-1]]` (the chronologically last value in play). -/
def cagrEnd (values : Series) (yp : Option ℕ) : ℚ :=
  dictGetD values ((cagrSortedYears values yp).getLastD 0) 0

/-- `num_years = sorted_years[-1] - sorted_years[0]`; the sorted list makes
truncated subtraction exact, and `num_years ≤ 0` becomes `= 0`. -/
def cagrSpan (values : Series) (yp : Option ℕ) : ℕ :=
  (cagrSortedYears values yp).getLastD 0 - (cagrSortedYears values yp).headD 0

/-- Python `round(x, 2)` idealised over the reals (the concrete values proved
about land exactly on a representable value, so the tie-breaking mode is
immaterial). -/
noncomputable def round2 (x : ℝ) : ℝ := (round (x * 100) : ℤ) / 100

/-- `calculate_cagr` (lines 46-80), floats idealised as reals.  The `try`
block cannot fail once the guards pass (base and exponent are positive). -/
noncomputable def calculate_cagr (values : Series) (yp : Option ℕ) : ℝ :=
  if values.length < 2 then 0
  else if (cagrSortedYears values yp).length < 2 then 0
  else
    let s := cagrStart values yp
    let e := cagrEnd values yp
    let n := cagrSpan values yp
    if s ≤ 0 ∨ e ≤ 0 ∨ n = 0 then 0
    else round2 ((((e : ℝ) / (s : ℝ)) ^ ((1 : ℝ) / (n : ℝ)) - 1) * 100)

/-! ### Concrete sanity checks on the embedding -/

example :
    find_row_by_label [[.text "Operating Profit", .int 3]] "profit" = some 0 := by decide
example : find_year_row [[.text "x"], [.int 2020, .int 2021, .text "2022"]] = some 1 := by
  decide
example : extract_years [.date 2022 3 31, .text "FY 2020", .int 2021] = [2020, 2021, 2022] := by
  decide
example : extract_years [.text "FY2020"] = [] := by decide
example : extractFieldFromRow [.text "Price", .text "500"] = some 500 := by decide
example : pyFloatParse "-2.5e1".data = some (-25) := by decide
example : rowQuarters [.text "Jun 2021", .time] =
    ["JUN 2021".data, quarterPlaceholder 1] := by decide

/-! ### Dict-semantics lemmas -/

lemma mem_seriesKeys_iff_any {d : Series} {k : ℕ} :
    k ∈ seriesKeys d ↔ d.any (fun p => p.1 = k) = true := by
  rw [List.any_eq_true]
  unfold seriesKeys
  rw [List.mem_map]
  constructor
  · rintro ⟨p, hp, rfl⟩
    exact ⟨p, hp, decide_eq_true rfl⟩
  · rintro ⟨p, hp, hk⟩
    exact ⟨p, hp, of_decide_eq_true hk⟩

lemma seriesKeys_dictInsert (d : Series) (k : ℕ) (v : ℚ) :
    seriesKeys (dictInsert d k v) =
      if k ∈ seriesKeys d then seriesKeys d else seriesKeys d ++ [k] := by
  by_cases h : k ∈ seriesKeys d
  · rw [if_pos h]
    unfold dictInsert
    rw [if_pos (mem_seriesKeys_iff_any.mp h)]
    unfold seriesKeys
    rw [List.map_map]
    apply List.map_congr_left
    intro p _
    by_cases hp : p.1 = k
    · simp [hp]
    · simp [hp]
  · rw [if_neg h]
    unfold dictInsert
    rw [if_neg (fun hc => h (mem_seriesKeys_iff_any.mpr hc))]
    simp [seriesKeys]

lemma mem_seriesKeys_dictInsert {d : Series} {k k' : ℕ} {v : ℚ} :
    k' ∈ seriesKeys (dictInsert d k v) ↔ k' = k ∨ k' ∈ seriesKeys d := by
  rw [seriesKeys_dictInsert]
  by_cases h : k ∈ seriesKeys d
  · rw [if_pos h]
    constructor
    · exact fun hm => Or.inr hm
    · rintro (rfl | hm)
      · exact h
      · exact hm
  · rw [if_neg h]
    simp [or_comm]

lemma nodup_seriesKeys_dictInsert {d : Series} {k : ℕ} {v : ℚ}
    (h : (seriesKeys d).Nodup) : (seriesKeys (dictInsert d k v)).Nodup := by
  rw [seriesKeys_dictInsert]
  by_cases hm : k ∈ seriesKeys d
  · rwa [if_pos hm]
  · rw [if_neg hm]
    rw [List.nodup_append]
    exact ⟨h, List.nodup_singleton k, by simpa using fun h' => hm h'⟩

lemma find?_map_replace_self (t : List (ℕ × ℚ)) (k : ℕ) (v : ℚ)
    (h : t.any (fun p => p.1 = k) = true) :
    (t.map (fun p => if p.1 = k then (k, v) else p)).find? (fun p => p.1 = k) =
      some (k, v) := by
  induction t with
  | nil => simp at h
  | cons p t ih =>
    rw [List.map_cons]
    by_cases hp : p.1 = k
    · rw [if_pos hp]
      exact List.find?_cons_of_pos _ (decide_eq_true rfl)
    · rw [if_neg hp]
      rw [List.find?_cons_of_neg _ (by simpa using hp)]
      apply ih
      rcases List.any_eq_true.mp h with ⟨q, hq, hqk⟩
      rcases List.mem_cons.mp hq with rfl | hqt
      · exact absurd (of_decide_eq_true hqk) hp
      · exact List.any_eq_true.mpr ⟨q, hqt, hqk⟩

lemma find?_dictInsert_self (d : Series) (k : ℕ) (v : ℚ) :
    (dictInsert d k v).find? (fun p => p.1 = k) = some (k, v) := by
  unfold dictInsert
  by_cases h : d.any (fun p => p.1 = k) = true
  · rw [if_pos h]
    exact find?_map_replace_self d k v h
  · rw [if_neg h]
    have hnone : d.find? (fun p => p.1 = k) = none := by
      rw [List.find?_eq_none]
      intro p hp hc
      exact h (List.any_eq_true.mpr ⟨p, hp, hc⟩)
    rw [List.find?_append, hnone]
    simp [List.find?_cons_of_pos]

lemma dictGet?_dictInsert_self (d : Series) (k : ℕ) (v : ℚ) :
    dictGet? (dictInsert d k v) k = some v := by
  unfold dictGet?
  rw [find?_dictInsert_self]
  rfl

lemma find?_map_replace_ne (t : List (ℕ × ℚ)) {k k' : ℕ} (v : ℚ) (h : k' ≠ k) :
    (t.map (fun p => if p.1 = k then (k, v) else p)).find? (fun p => p.1 = k') =
      t.find? (fun p => p.1 = k') := by
  induction t with
  | nil => rfl
  | cons p t ih =>
    rw [List.map_cons]
    by_cases hp : p.1 = k
    · have h1 : ¬((k, v) : ℕ × ℚ).1 = k' := fun hc => h hc.symm
      have h2 : ¬p.1 = k' := fun hc => h (hc.symm.trans hp)
      rw [if_pos hp, List.find?_cons_of_neg _ (by simpa using h1),
        List.find?_cons_of_neg _ (by simpa using h2)]
      exact ih
    · rw [if_neg hp]
      by_cases hpk : p.1 = k'
      · have hc : decide (p.1 = k') = true := decide_eq_true hpk
        rw [@List.find?_cons_of_pos _ (fun q : ℕ × ℚ => decide (q.1 = k')) p _ hc,
          @List.find?_cons_of_pos _ (fun q : ℕ × ℚ => decide (q.1 = k')) p _ hc]
      · rw [List.find?_cons_of_neg _ (by simpa using hpk),
          List.find?_cons_of_neg _ (by simpa using hpk)]
        exact ih

lemma find?_dictInsert_ne (d : Series) {k k' : ℕ} (v : ℚ) (h : k' ≠ k) :
    (dictInsert d k v).find? (fun p => p.1 = k') = d.find? (fun p => p.1 = k') := by
  unfold dictInsert
  by_cases hany : d.any (fun p => p.1 = k) = true
  · rw [if_pos hany]
    exact find?_map_replace_ne d v h
  · rw [if_neg hany]
    rw [List.find?_append]
    have h1 : ¬((k, v) : ℕ × ℚ).1 = k' := fun hc => h hc.symm
    rw [List.find?_cons_of_neg _ (by simpa using h1)]
    simp

lemma dictGet?_dictInsert_ne (d : Series) {k k' : ℕ} (v : ℚ) (h : k' ≠ k) :
    dictGet? (dictInsert d k v) k' = dictGet? d k' := by
  unfold dictGet?
  rw [find?_dictInsert_ne d v h]

lemma mem_dictInsert {d : Series} {k : ℕ} {v : ℚ} {p : ℕ × ℚ}
    (h : p ∈ dictInsert d k v) : p ∈ d ∨ p = (k, v) := by
  unfold dictInsert at h
  by_cases hany : d.any (fun q => q.1 = k) = true
  · rw [if_pos hany] at h
    rcases List.mem_map.mp h with ⟨q, hq, hqe⟩
    by_cases hqk : q.1 = k
    · right
      rw [if_pos hqk] at hqe
      exact hqe.symm
    · left
      rw [if_neg hqk] at hqe
      exact hqe ▸ hq
  · rw [if_neg hany] at h
    rcases List.mem_append.mp h with hm | hm
    · exact Or.inl hm
    · exact Or.inr (by simpa using hm)

/-! ### Fold-level dict lemmas (shared by the series-building loops) -/

section DictFold

variable {α : Type} (key : α → ℕ) (val : α → ℚ)

/-- The generic shape of every series-building loop in the source. -/
def dictFoldl (d : Series) (l : List α) : Series :=
  l.foldl (fun d x => dictInsert d (key x) (val x)) d

lemma mem_seriesKeys_dictFoldl :
    ∀ (l : List α) (d : Series) (k : ℕ),
      k ∈ seriesKeys (dictFoldl key val d l) ↔ k ∈ seriesKeys d ∨ k ∈ l.map key := by
  intro l
  induction l with
  | nil => simp [dictFoldl]
  | cons x t ih =>
    intro d k
    have : dictFoldl key val d (x :: t) = dictFoldl key val (dictInsert d (key x) (val x)) t :=
      rfl
    rw [this, ih]
    rw [mem_seriesKeys_dictInsert]
    simp [or_comm, or_assoc, or_left_comm]

lemma nodup_seriesKeys_dictFoldl :
    ∀ (l : List α) (d : Series), (seriesKeys d).Nodup →
      (seriesKeys (dictFoldl key val d l)).Nodup := by
  intro l
  induction l with
  | nil => exact fun d h => h
  | cons x t ih =>
    intro d h
    exact ih _ (nodup_seriesKeys_dictInsert h)

lemma dictGet?_dictFoldl (f : ℕ → ℚ) (hf : ∀ x, val x = f (key x)) :
    ∀ (l : List α) (d : Series),
      (∀ k, k ∈ seriesKeys d → dictGet? d k = some (f k)) →
      ∀ k, k ∈ seriesKeys d ∨ k ∈ l.map key →
        dictGet? (dictFoldl key val d l) k = some (f k) := by
  intro l
  induction l with
  | nil =>
    intro d hd k hk
    simp only [List.map_nil, List.not_mem_nil, or_false] at hk
    exact hd k hk
  | cons x t ih =>
    intro d hd k hk
    have hstep : ∀ k', k' ∈ seriesKeys (dictInsert d (key x) (val x)) →
        dictGet? (dictInsert d (key x) (val x)) k' = some (f k') := by
      intro k' hk'
      by_cases he : k' = key x
      · subst he
        rw [dictGet?_dictInsert_self, hf]
      · rw [dictGet?_dictInsert_ne d _ he]
        rcases mem_seriesKeys_dictInsert.mp hk' with he' | hm
        · exact absurd he' he
        · exact hd k' hm
    have hmem : k ∈ seriesKeys (dictInsert d (key x) (val x)) ∨ k ∈ t.map key := by
      rcases hk with hm | hm
      · exact Or.inl (mem_seriesKeys_dictInsert.mpr (Or.inr hm))
      · rcases List.mem_cons.mp (by simpa using hm : k ∈ key x :: t.map key) with he | hm'
        · exact Or.inl (mem_seriesKeys_dictInsert.mpr (Or.inl he))
        · exact Or.inr hm'
    exact ih _ hstep k hmem

lemma forall_mem_dictFoldl (P : ℕ × ℚ → Prop) (hP : ∀ x, P (key x, val x)) :
    ∀ (l : List α) (d : Series), (∀ p ∈ d, P p) →
      ∀ p ∈ dictFoldl key val d l, P p := by
  intro l
  induction l with
  | nil => exact fun d hd => hd
  | cons x t ih =>
    intro d hd
    apply ih
    intro p hp
    rcases mem_dictInsert hp with hm | rfl
    · exact hd p hm
    · exact hP x

end DictFold

/-! ### `findIdx?` characterization (header-row and label-row locators) -/

/-- `findIdx?` returns exactly the first index whose element satisfies the
predicate (restatement of the library characterization with a default
element, keeping the statement binder-free and decidable). -/
lemma findIdx?_eq_some_char {p : α → Bool} {l : List α} {i : ℕ} (d : α) :
    l.findIdx? p = some i ↔
      (i < l.length ∧ p (l.getD i d) = true ∧
        ∀ j, j < i → p (l.getD j d) = false) := by
  rw [List.findIdx?_eq_some_iff_getElem]
  constructor
  · rintro ⟨h, hp, hall⟩
    refine ⟨h, ?_, ?_⟩
    · rwa [List.getD_eq_getElem l d h]
    · intro j hj
      have hjl : j < l.length := Nat.lt_trans hj h
      rw [List.getD_eq_getElem l d hjl]
      cases hb : p (l.get ⟨j, hjl⟩) with
      | false => rfl
      | true => exact absurd (hb : p l[j] = true) (hall j hj)
  · rintro ⟨h, hp, hall⟩
    refine ⟨h, ?_, ?_⟩
    · rwa [List.getD_eq_getElem l d h] at hp
    · intro j hj
      have hjl : j < l.length := Nat.lt_trans hj h
      have := hall j hj
      rw [List.getD_eq_getElem l d hjl] at this
      rw [this]
      exact Bool.false_ne_true

/-! ## Claim C1: row aliasing -/

/-- A profit & loss sheet on which two different metrics alias to one row: the
single data row labelled `Profit` is matched (by substring containment) both
by `operating profit` and by `net profit`. -/
def c1plSheet : Sheet :=
  { cols := []
    rows := [[.empty, .int 2021, .int 2022, .int 2023],
             [.text "Profit", .int 10, .int 20, .int 30]] }

def c1Series : Series := [(2021, 10), (2022, 20), (2023, 30)]

/-- C1 counterexample: in the profit & loss pass — which, unlike the balance
sheet and cash flow passes, threads no `used_rows` set — the metrics
`operating_profit` and `net_profit` are both assigned row index 1 of the same
sheet, and the extracted document carries the same series for both, refuting
the claim that no two metrics of the profit_loss role can be assigned the same
row index. -/
theorem c1_counterexample :
    plRowChoice c1plSheet.rows operatingProfitTerms = some 1 ∧
    plRowChoice c1plSheet.rows netProfitTerms = some 1 ∧
    (extract_from_profit_loss_sheet [("Profit and Loss", c1plSheet)]).map
        (fun d => (d.operating_profit, d.net_profit)) = some (c1Series, c1Series) := by
  decide

lemma pickRow_not_mem {rows : List (List Cell)} {used : List ℕ} :
    ∀ {terms : List String} {i : ℕ}, pickRow rows used terms = some i → i ∉ used := by
  intro terms
  induction terms with
  | nil => intro i h; simp [pickRow] at h
  | cons t ts ih =>
    intro i h
    unfold pickRow at h
    split at h
    · split at h
      · exact ih h
      · rename_i hj
        cases h
        exact hj
    · exact ih h

lemma assignRowsUsed_nodup_aux (rows : List (List Cell)) :
    ∀ (ms : List (String × List String)) (used : List ℕ),
      ((assignRowsUsed rows ms used).filterMap Prod.snd).Nodup ∧
        ∀ r ∈ (assignRowsUsed rows ms used).filterMap Prod.snd, r ∉ used := by
  intro ms
  induction ms with
  | nil => exact fun used => ⟨List.nodup_nil, by simp [assignRowsUsed]⟩
  | cons m ms ih =>
    intro used
    unfold assignRowsUsed
    cases hp : pickRow rows used m.2 with
    | none =>
      refine ⟨?_, ?_⟩
      · simpa using (ih used).1
      · intro r hr
        exact (ih used).2 r (by simpa using hr)
    | some i =>
      have hi : i ∉ used := pickRow_not_mem hp
      refine ⟨?_, ?_⟩
      · rw [List.filterMap_cons]
        simp only [Prod.snd]
        rw [List.nodup_cons]
        refine ⟨fun hc => (ih (i :: used)).2 i hc (List.mem_cons_self i used), (ih (i :: used)).1⟩
      · intro r hr
        rcases List.mem_cons.mp (by simpa using hr :
            r ∈ i :: (assignRowsUsed rows ms (i :: used)).filterMap Prod.snd) with rfl | hm
        · exact hi
        · exact fun hc => (ih (i :: used)).2 r hm (List.mem_cons_of_mem i hc)

/-- C1 amended: a used-row-tracking pass — as the balance-sheet and cash-flow
roles run it — never assigns the same row index to two metrics; the
profit_loss role (like the quarterly role) runs without row-exclusion
tracking, so the guarantee holds only for the balance_sheet and cash_flow
passes. -/
theorem c1_no_row_aliasing_amended (rows : List (List Cell))
    (ms : List (String × List String)) :
    ((assignRowsUsed rows ms []).filterMap Prod.snd).Nodup :=
  (assignRowsUsed_nodup_aux rows ms []).1

/-! ## Claim C3: zero-default invariant -/

/-- When no synonym term matches any row, the used-row-tracking term loop of
the balance-sheet/cash-flow passes (lines 282-294) also finds no row,
whatever rows are already excluded. -/
lemma pickRow_eq_none {rows : List (List Cell)} {used : List ℕ} :
    ∀ {terms : List String}, (∀ t ∈ terms, find_row_by_label rows t = none) →
      pickRow rows used terms = none := by
  intro terms
  induction terms with
  | nil => intro _; rfl
  | cons t ts ih =>
    intro h
    unfold pickRow
    rw [h t (List.mem_cons_self t ts)]
    exact ih fun u hu => h u (List.mem_cons_of_mem t hu)

/-- C3: for every located sheet, when no synonym term of a metric matches any
row, the extraction produces the all-zero dict over the full year axis —
every year of the axis is mapped to `0.0` — both in the profit & loss pass
(lines 227-241) and in the used-row-tracking passes of the balance sheet and
cash flow (lines 277-298), where the untouched exclusion set is returned
unchanged; the embedding is a total function, so no exception can be
raised. -/
theorem c3_zero_default (rows : List (List Cell)) (years : List ℕ) (terms : List String)
    (used : List ℕ) (h : ∀ t ∈ terms, find_row_by_label rows t = none) :
    plMetric rows years terms = zeroSeries years ∧
      usedMetric rows years used terms = (zeroSeries years, used) ∧
      ∀ y ∈ years, dictGet? (zeroSeries years) y = some 0 := by
  refine ⟨?_, ?_, ?_⟩
  · unfold plMetric plRowChoice
    rw [List.findSome?_eq_none_iff.mpr h]
  · unfold usedMetric
    rw [pickRow_eq_none h]
  · intro y hy
    have := dictGet?_dictFoldl (fun y : ℕ => y) (fun _ => (0 : ℚ)) (fun _ => (0 : ℚ))
      (fun _ => rfl) years [] (by intro k hk; simp [seriesKeys] at hk) y
      (Or.inr (by simpa using hy))
    simpa [dictFoldl, zeroSeries] using this

/-- Witness for C3 at a concrete sheet and axis, for both the profit & loss
pass and the used-row-tracking pass (with a non-empty exclusion set). -/
theorem c3_zero_default_witness :
    plMetric [[Cell.text "Profit"]] [2021, 2022] ["sales"] = zeroSeries [2021, 2022] ∧
      usedMetric [[Cell.text "Profit"]] [2021, 2022] [0] ["sales"] =
        (zeroSeries [2021, 2022], [0]) :=
  ⟨(c3_zero_default [[Cell.text "Profit"]] [2021, 2022] ["sales"] [0] (by decide)).1,
    (c3_zero_default [[Cell.text "Profit"]] [2021, 2022] ["sales"] [0] (by decide)).2.1⟩

/-! ## Claim C2: completeness invariant -/

/-- A series is complete for an axis when its key set is exactly the set of
axis buckets, without duplicates; when the axis itself has no duplicate years
this forces exactly `N` entries. -/
def seriesComplete (s : Series) (years : List ℕ) : Prop :=
  (seriesKeys s).Nodup ∧ (∀ k, k ∈ seriesKeys s ↔ k ∈ years) ∧
    (years.Nodup → s.length = years.length)

lemma length_eq_of_nodup_mem_iff {l l' : List ℕ} (h1 : l.Nodup) (h2 : l'.Nodup)
    (h : ∀ k, k ∈ l ↔ k ∈ l') : l.length = l'.length :=
  (List.perm_of_nodup_nodup_toFinset_eq h1 h2
    (Finset.ext fun a => by simpa using h a)).length_eq

lemma seriesComplete_of_keys {s : Series} {years : List ℕ}
    (h1 : (seriesKeys s).Nodup) (h2 : ∀ k, k ∈ seriesKeys s ↔ k ∈ years) :
    seriesComplete s years := by
  refine ⟨h1, h2, fun hn => ?_⟩
  have hl : (seriesKeys s).length = years.length := length_eq_of_nodup_mem_iff h1 hn h2
  simpa [seriesKeys] using hl

lemma extract_numeric_values_complete (row : List Cell) (years : List ℕ) :
    seriesComplete (extract_numeric_values row years) years := by
  have hmap : years.enum.map (fun p : ℕ × ℕ => p.2) = years := List.enum_map_snd years
  apply seriesComplete_of_keys
  · exact nodup_seriesKeys_dictFoldl (fun p : ℕ × ℕ => p.2)
      (fun p => rowValueAt row p.1) years.enum [] List.nodup_nil
  · intro k
    have := mem_seriesKeys_dictFoldl (fun p : ℕ × ℕ => p.2)
      (fun p => rowValueAt row p.1) years.enum [] k
    rw [hmap] at this
    simpa [seriesKeys] using this

/-- Key facts for every `{year: f(year) for year in years}`-style dict. -/
lemma dict_over_years_complete (f : ℕ → ℚ) (years : List ℕ) :
    seriesComplete (years.foldl (fun d y => dictInsert d y (f y)) []) years := by
  have hmap : years.map (fun y : ℕ => y) = years := List.map_id years
  apply seriesComplete_of_keys
  · exact nodup_seriesKeys_dictFoldl (fun y : ℕ => y) f years [] List.nodup_nil
  · intro k
    have := mem_seriesKeys_dictFoldl (fun y : ℕ => y) f years [] k
    rw [hmap] at this
    simpa [seriesKeys] using this

lemma zeroSeries_complete (years : List ℕ) : seriesComplete (zeroSeries years) years :=
  dict_over_years_complete (fun _ => 0) years

lemma plMetric_complete (rows : List (List Cell)) (years : List ℕ) (terms : List String) :
    seriesComplete (plMetric rows years terms) years := by
  unfold plMetric
  cases plRowChoice rows terms
  · exact zeroSeries_complete years
  · exact extract_numeric_values_complete _ years

lemma usedMetric_complete (rows : List (List Cell)) (years : List ℕ) (used : List ℕ)
    (terms : List String) : seriesComplete (usedMetric rows years used terms).1 years := by
  unfold usedMetric
  cases pickRow rows used terms
  · exact zeroSeries_complete years
  · exact extract_numeric_values_complete _ years

lemma calcTotalAssets_complete (years : List ℕ) (ca fa td te : Series) :
    seriesComplete (calcTotalAssets years ca fa td te) years :=
  dict_over_years_complete
    (fun y =>
      let m1 := dictGetD ca y 0 + dictGetD fa y 0
      let m2 := dictGetD td y 0 + dictGetD te y 0
      if 0 < m2 ∧ m1 < m2 then m2 else if 0 < m1 then m1 else 0)
    years

lemma calcFreeCashFlow_complete (years : List ℕ) (ocf capex : Series) :
    seriesComplete (calcFreeCashFlow years ocf capex) years :=
  dict_over_years_complete (fun y => dictGetD ocf y 0 - |dictGetD capex y 0|) years

lemma applyTotalAssetsFix_complete (bs : BSData)
    (h : seriesComplete bs.total_assets bs.years) :
    seriesComplete (applyTotalAssetsFix bs).total_assets (applyTotalAssetsFix bs).years := by
  unfold applyTotalAssetsFix
  split
  · split
    · exact calcTotalAssets_complete _ _ _ _ _
    · exact h
  · exact h

/-- The substitution step touches only `total_assets`. -/
lemma applyTotalAssetsFix_fields (bs : BSData) :
    (applyTotalAssetsFix bs).years = bs.years ∧
    (applyTotalAssetsFix bs).total_equity = bs.total_equity ∧
    (applyTotalAssetsFix bs).total_debt = bs.total_debt ∧
    (applyTotalAssetsFix bs).current_assets = bs.current_assets ∧
    (applyTotalAssetsFix bs).current_liabilities = bs.current_liabilities ∧
    (applyTotalAssetsFix bs).fixed_assets = bs.fixed_assets := by
  unfold applyTotalAssetsFix
  split
  · split
    · exact ⟨rfl, rfl, rfl, rfl, rfl, rfl⟩
    · exact ⟨rfl, rfl, rfl, rfl, rfl, rfl⟩
  · exact ⟨rfl, rfl, rfl, rfl, rfl, rfl⟩

lemma qMetric_length (rows : List (List Cell)) (n : ℕ) (terms : List String) :
    (qMetric rows n terms).length = n := by
  unfold qMetric
  split
  · simp [quarterValues]
  · simp

/-- C2 amended: every metric series of a located role has a duplicate-free key
set equal (as a set) to the role's temporal axis, hence exactly `N` entries
whenever the axis has no duplicate years; the quarterly role's list-valued
series always have exactly as many entries as quarter labels.  When the axis
contains duplicate years the year-keyed dicts collapse them, so the entry
count is the number of distinct years, not `N`. -/
theorem c2_completeness_amended :
    (∀ row years, seriesComplete (extract_numeric_values row years) years) ∧
    (∀ years, seriesComplete (zeroSeries years) years) ∧
    (∀ wb pl, extract_from_profit_loss_sheet wb = some pl →
      seriesComplete pl.sales pl.years ∧ seriesComplete pl.operating_profit pl.years ∧
      seriesComplete pl.net_profit pl.years ∧ seriesComplete pl.eps pl.years ∧
      seriesComplete pl.dividend pl.years) ∧
    (∀ wb bs, extract_from_balance_sheet wb = some bs →
      seriesComplete bs.total_equity bs.years ∧ seriesComplete bs.total_debt bs.years ∧
      seriesComplete bs.current_assets bs.years ∧
      seriesComplete bs.current_liabilities bs.years ∧
      seriesComplete bs.fixed_assets bs.years ∧ seriesComplete bs.total_assets bs.years) ∧
    (∀ wb cf, extract_from_cash_flow_sheet wb = some cf →
      seriesComplete cf.operating_cash_flow cf.years ∧ seriesComplete cf.capex cf.years ∧
      seriesComplete cf.financing_cash_flow cf.years ∧
      seriesComplete cf.free_cash_flow cf.years) ∧
    (∀ wb q, extract_from_quarters_sheet wb = some q →
      q.revenue.length = q.quarters.length ∧ q.net_profit.length = q.quarters.length) := by
  refine ⟨extract_numeric_values_complete, zeroSeries_complete, ?_, ?_, ?_, ?_⟩
  · intro wb pl h
    unfold extract_from_profit_loss_sheet at h
    split at h
    · exact absurd h (by simp)
    · split at h
      · exact absurd h (by simp)
      · cases h
        exact ⟨plMetric_complete _ _ _, plMetric_complete _ _ _, plMetric_complete _ _ _,
          plMetric_complete _ _ _, plMetric_complete _ _ _⟩
  · intro wb bs h
    unfold extract_from_balance_sheet at h
    split at h
    · exact absurd h (by simp)
    · split at h
      · exact absurd h (by simp)
      · cases h
        refine ⟨?_, ?_, ?_, ?_, ?_,
          applyTotalAssetsFix_complete _ (usedMetric_complete _ _ _ totalAssetsTerms)⟩ <;>
        · rw [(applyTotalAssetsFix_fields _).1]
          first
            | (rw [(applyTotalAssetsFix_fields _).2.1]; exact usedMetric_complete _ _ _ _)
            | (rw [(applyTotalAssetsFix_fields _).2.2.1]; exact usedMetric_complete _ _ _ _)
            | (rw [(applyTotalAssetsFix_fields _).2.2.2.1]; exact usedMetric_complete _ _ _ _)
            | (rw [(applyTotalAssetsFix_fields _).2.2.2.2.1]; exact usedMetric_complete _ _ _ _)
            | (rw [(applyTotalAssetsFix_fields _).2.2.2.2.2]; exact usedMetric_complete _ _ _ _)
  · intro wb cf h
    unfold extract_from_cash_flow_sheet at h
    split at h
    · exact absurd h (by simp)
    · split at h
      · exact absurd h (by simp)
      · cases h
        exact ⟨usedMetric_complete _ _ _ _, usedMetric_complete _ _ _ _,
          usedMetric_complete _ _ _ _, calcFreeCashFlow_complete _ _ _⟩
  · intro wb q h
    unfold extract_from_quarters_sheet at h
    split at h
    · exact absurd h (by simp)
    · split at h
      · exact absurd h (by simp)
      · cases h
        exact ⟨qMetric_length _ _ _, qMetric_length _ _ _⟩

/-- A profit & loss sheet whose header row carries the year 2021 twice: the
temporal axis is `[2021, 2021, 2022]` (duplicates pass through, sorted), yet
the `sales` dict collapses the duplicate bucket. -/
def c2plSheet : Sheet :=
  { cols := []
    rows := [[.empty, .text "2021", .text "2021", .text "2022"],
             [.text "Sales", .int 5, .int 6, .int 7]] }

/-- C2 counterexample: the located profit_loss role has a temporal axis of
length `N = 3` (with a duplicate year), but the extracted `sales` series has
only 2 entries — not exactly `N` — refuting the claim's "including when the
extracted year list contains duplicate years" strengthening. -/
theorem c2_counterexample :
    (extract_from_profit_loss_sheet [("Profit and Loss", c2plSheet)]).map
      (fun d => (d.years.length, d.sales.length)) = some (3, 2) := by
  decide

/-- The document the duplicate-year workbook extracts to. -/
def c2pl : PLData :=
  { years := [2021, 2021, 2022]
    sales := [(2021, 6), (2022, 7)]
    operating_profit := [(2021, 0), (2022, 0)]
    net_profit := [(2021, 0), (2022, 0)]
    eps := [(2021, 0), (2022, 0)]
    dividend := [(2021, 0), (2022, 0)] }

/-- Witness for C2 (amended) at a concrete workbook. -/
theorem c2_completeness_amended_witness :
    extract_from_profit_loss_sheet [("Profit and Loss", c2plSheet)] = some c2pl ∧
      seriesComplete c2pl.sales c2pl.years :=
  ⟨by decide, (c2_completeness_amended.2.2.1 [("Profit and Loss", c2plSheet)] c2pl (by decide)).1⟩

/-! ## Claim C4: year range filter -/

lemma range_guard_of_bind {o : Option ℕ} {y : ℕ}
    (h : (o.bind fun z => if 1990 ≤ z ∧ z ≤ 2030 then some z else none) = some y) :
    1990 ≤ y ∧ y ≤ 2030 := by
  rcases Option.bind_eq_some.mp h with ⟨z, _, hz⟩
  split at hz
  · cases hz; assumption
  · cases hz

lemma cellYear_range {c : Cell} {y : ℕ} (h : cellYear c = some y) :
    1990 ≤ y ∧ y ≤ 2030 := by
  cases c with
  | empty => simp [cellYear] at h
  | date yy m d =>
    simp only [cellYear] at h
    split at h
    · cases h; assumption
    · cases h
  | int n => exact range_guard_of_bind h
  | float q => exact range_guard_of_bind h
  | text s => exact range_guard_of_bind h
  | time =>
    have h' : ((yearScan none (cellChars Cell.time)).bind
        fun z => if 1990 ≤ z ∧ z ≤ 2030 then some z else none) = some y := h
    exact range_guard_of_bind h'

/-- A header row exercising both rejection shapes (date-like and textual) at
1899 and 2031, and both inclusive boundaries at 1990 and 2030. -/
def c4row : List Cell :=
  [.date 1899 3 31, .date 2031 3 31, .text "1899", .text "2031",
   .date 1990 3 31, .text "2030"]

/-- C4: every year in a temporal axis produced by `extract_years` lies in
`[1990, 2030]` — so 1899 and 2031 never appear, whether date-like or textual —
while 1990 and 2030 are accepted at both representations; out-of-range years
are dropped, not clamped (the concrete row keeps only its two in-range
years). -/
theorem c4_year_range :
    (∀ row y, y ∈ extract_years row → 1990 ≤ y ∧ y ≤ 2030) ∧
      extract_years c4row = [1990, 2030] := by
  constructor
  · intro row y hy
    have hy' : y ∈ row.filterMap cellYear :=
      (List.perm_insertionSort (· ≤ ·) (row.filterMap cellYear)).mem_iff.mp hy
    rcases List.mem_filterMap.mp hy' with ⟨c, _, hc⟩
    exact cellYear_range hc
  · decide

/-- Witness for C4 at a concrete in-range year. -/
theorem c4_year_range_witness :
    1990 ∈ extract_years c4row ∧ 1990 ≤ 1990 ∧ 1990 ≤ 2030 :=
  ⟨by decide, c4_year_range.1 c4row 1990 (by decide)⟩

/-! ## Claim C5: label-matcher tier priority -/

def c5rows : List (List Cell) := [[.text "Net Sales"], [.text "Sales"]]

/-- C5 counterexample: with the label `sales`, row 1's cleaned first-column
text is exactly the label, yet the matcher returns row 0 — whose text is not
the label but merely contains it — because rows are scanned outermost and the
first row matching any tier wins. -/
theorem c5_counterexample :
    find_row_by_label c5rows "sales" = some 0 ∧
      pyClean (cellChars (Cell.text "Net Sales")) ≠ pyClean "sales".data ∧
      pyClean (cellChars (Cell.text "Sales")) = pyClean "sales".data := by
  decide

/-- C5 amended: the three matching tiers are checked in priority order within
each row, but rows are scanned top-to-bottom with the first row matching any
tier winning: `find_row_by_label` returns index `i` exactly when row `i`
matches some tier and no earlier row matches any tier.  A row whose cleaned
first-column text is exactly the label always matches; it is returned only
when no earlier row matches a weaker tier. -/
theorem c5_matcher_amended :
    (∀ rows (label : String) i, find_row_by_label rows label = some i ↔
      (i < rows.length ∧ rowMatchesLabel (pyClean label.data) (rows.getD i []) = true ∧
        ∀ j, j < i → rowMatchesLabel (pyClean label.data) (rows.getD j []) = false)) ∧
    (∀ (label s : String) (rest : List Cell), pyClean s.data = pyClean label.data →
      rowMatchesLabel (pyClean label.data) (Cell.text s :: rest) = true) := by
  constructor
  · intro rows label i
    exact findIdx?_eq_some_char []
  · intro label s rest h
    simp [rowMatchesLabel, cellChars, h]

def c5rows2 : List (List Cell) := [[.text "Total"], [.text "Sales"]]

/-- Witness for C5 (amended): with no earlier matching row, the exactly
matching row is returned. -/
theorem c5_matcher_amended_witness : find_row_by_label c5rows2 "sales" = some 1 :=
  (c5_matcher_amended.1 c5rows2 "sales" 1).mpr (by decide)

/-! ## Claim C6: total-assets recomputation -/

/-- The branch structure of lines 314-325 computes the larger of the two
candidate sums clamped below at zero. -/
lemma taValue_eq_max (m1 m2 : ℚ) :
    (if 0 < m2 ∧ m1 < m2 then m2 else if 0 < m1 then m1 else 0) = max 0 (max m1 m2) := by
  by_cases ha : 0 < m2 ∧ m1 < m2
  · rw [if_pos ha, max_eq_right ha.2.le, max_eq_right ha.1.le]
  · rw [if_neg ha]
    by_cases hb : 0 < m1
    · have hm : m2 ≤ m1 := by
        rcases le_or_lt m2 0 with h | h
        · exact h.trans hb.le
        · exact not_lt.mp (fun hc => ha ⟨h, hc⟩)
      rw [if_pos hb, max_eq_left hm, max_eq_right hb.le]
    · have h1 : m1 ≤ 0 := not_lt.mp hb
      have h2 : m2 ≤ 0 := by
        by_contra hc
        push_neg at hc
        exact ha ⟨hc, lt_of_le_of_lt h1 hc⟩
      rw [if_neg hb, max_eq_left (max_le h1 h2)]

lemma calcTotalAssets_value (years : List ℕ) (ca fa td te : Series) (y : ℕ)
    (hy : y ∈ years) :
    dictGet? (calcTotalAssets years ca fa td te) y =
      some (max 0 (max (dictGetD ca y 0 + dictGetD fa y 0)
        (dictGetD td y 0 + dictGetD te y 0))) := by
  have := dictGet?_dictFoldl (fun y : ℕ => y)
    (fun y =>
      let m1 := dictGetD ca y 0 + dictGetD fa y 0
      let m2 := dictGetD td y 0 + dictGetD te y 0
      if 0 < m2 ∧ m1 < m2 then m2 else if 0 < m1 then m1 else 0)
    (fun y => max 0 (max (dictGetD ca y 0 + dictGetD fa y 0)
      (dictGetD td y 0 + dictGetD te y 0)))
    (fun x => taValue_eq_max _ _) years []
    (by intro k hk; simp [seriesKeys] at hk) y (Or.inr (by simpa using hy))
  simpa [dictFoldl, calcTotalAssets] using this

lemma calcTotalAssets_nonneg (years : List ℕ) (ca fa td te : Series) :
    ∀ p ∈ calcTotalAssets years ca fa td te, 0 ≤ p.2 := by
  have := forall_mem_dictFoldl (fun y : ℕ => y)
    (fun y =>
      let m1 := dictGetD ca y 0 + dictGetD fa y 0
      let m2 := dictGetD td y 0 + dictGetD te y 0
      if 0 < m2 ∧ m1 < m2 then m2 else if 0 < m1 then m1 else 0)
    (fun p => 0 ≤ p.2)
    (fun x => le_of_le_of_eq (le_max_left 0 _) (taValue_eq_max _ _).symm)
    years [] (by simp)
  intro p hp
  exact this p hp

/-- C6 amended: when `total_assets` is all-zero, the recomputed per-bucket
value is the larger of (current_assets + fixed_assets) and
(total_debt + total_equity) **clamped below at zero** — when both candidate
sums are non-positive the recomputed value is `0.0`, not the (negative)
larger sum; since all recomputed values are therefore non-negative, the
series is substituted exactly when it has at least one non-zero value. -/
theorem c6_total_assets_amended (bs : BSData)
    (h : ∀ p ∈ bs.total_assets, p.2 = 0) :
    (∀ y ∈ bs.years,
      dictGet? (calcTotalAssets bs.years bs.current_assets bs.fixed_assets bs.total_debt
        bs.total_equity) y =
        some (max 0 (max (dictGetD bs.current_assets y 0 + dictGetD bs.fixed_assets y 0)
          (dictGetD bs.total_debt y 0 + dictGetD bs.total_equity y 0)))) ∧
    ((∃ p ∈ calcTotalAssets bs.years bs.current_assets bs.fixed_assets bs.total_debt
        bs.total_equity, p.2 ≠ 0) →
      applyTotalAssetsFix bs = { bs with
        total_assets := (calcTotalAssets bs.years bs.current_assets bs.fixed_assets
          bs.total_debt bs.total_equity) }) ∧
    ((∀ p ∈ calcTotalAssets bs.years bs.current_assets bs.fixed_assets bs.total_debt
        bs.total_equity, p.2 = 0) →
      applyTotalAssetsFix bs = bs) := by
  have hall : bs.total_assets.all (fun p => decide (p.2 = 0)) = true :=
    List.all_eq_true.mpr (fun p hp => decide_eq_true (h p hp))
  refine ⟨fun y hy => calcTotalAssets_value bs.years _ _ _ _ y hy, ?_, ?_⟩
  · rintro ⟨p, hp, hpz⟩
    have hpos : 0 < p.2 := lt_of_le_of_ne (calcTotalAssets_nonneg _ _ _ _ _ p hp) (Ne.symm hpz)
    have hany : (calcTotalAssets bs.years bs.current_assets bs.fixed_assets bs.total_debt
        bs.total_equity).any (fun p => decide (0 < p.2)) = true :=
      List.any_eq_true.mpr ⟨p, hp, decide_eq_true hpos⟩
    unfold applyTotalAssetsFix
    rw [if_pos hall, if_pos hany]
  · intro hz
    have hany : (calcTotalAssets bs.years bs.current_assets bs.fixed_assets bs.total_debt
        bs.total_equity).any (fun p => decide (0 < p.2)) = false := by
      rw [← Bool.not_eq_true, List.any_eq_true]
      rintro ⟨p, hp, hpos⟩
      rw [hz p hp] at hpos
      exact absurd (of_decide_eq_true hpos) (lt_irrefl 0)
    unfold applyTotalAssetsFix
    rw [if_pos hall, hany]
    simp

/-- A balance sheet with all-zero `total_assets` whose two candidate sums are
both negative (−5 and −3). -/
def c6bs : BSData :=
  { years := [2021]
    total_equity := [(2021, 0)]
    total_debt := [(2021, -3)]
    current_assets := [(2021, -5)]
    current_liabilities := [(2021, 0)]
    fixed_assets := [(2021, 0)]
    total_assets := [(2021, 0)] }

/-- C6 counterexample: with all-zero `total_assets` and candidate sums −5 and
−3, the recomputed 2021 value is `0.0`, not the larger candidate −3 — the
claim's "equals the larger of the two sums" fails on negative candidates. -/
theorem c6_counterexample :
    (∀ p ∈ c6bs.total_assets, p.2 = 0) ∧
    dictGet? (calcTotalAssets c6bs.years c6bs.current_assets c6bs.fixed_assets
      c6bs.total_debt c6bs.total_equity) 2021 = some 0 ∧
    max (dictGetD c6bs.current_assets 2021 0 + dictGetD c6bs.fixed_assets 2021 0)
      (dictGetD c6bs.total_debt 2021 0 + dictGetD c6bs.total_equity 2021 0) = -3 ∧
    (0 : ℚ) ≠ -3 := by
  refine ⟨by decide, ?_, ?_, by norm_num⟩
  · have h := calcTotalAssets_value c6bs.years c6bs.current_assets c6bs.fixed_assets
      c6bs.total_debt c6bs.total_equity 2021 (by decide)
    rw [h]
    norm_num [c6bs, dictGetD, dictGet?, List.find?]
  · norm_num [c6bs, dictGetD, dictGet?, List.find?]

/-- Witness for C6 (amended) at the concrete balance sheet. -/
theorem c6_total_assets_amended_witness :
    dictGet? (calcTotalAssets c6bs.years c6bs.current_assets c6bs.fixed_assets
      c6bs.total_debt c6bs.total_equity) 2021 =
      some (max 0 (max (dictGetD c6bs.current_assets 2021 0 + dictGetD c6bs.fixed_assets 2021 0)
        (dictGetD c6bs.total_debt 2021 0 + dictGetD c6bs.total_equity 2021 0))) :=
  (c6_total_assets_amended c6bs (by decide)).1 2021 (by decide)

/-! ## Claim C7: fatal I/O degradation -/

/-- C7: a workbook that cannot be loaded (missing/unreadable file — modelled
by the `none` input — or a sheetless workbook) makes the full extraction entry
point return the empty document rather than raising, and each sheet role whose
sheet cannot be located degrades to an empty role result; every embedded
extraction function is total, so no data-shape condition can raise. -/
theorem c7_io_degradation :
    extract_all_data none = none ∧
    (∀ file, load_workbook file = none → extract_all_data file = none) ∧
    (∀ wb, find_sheet_by_name wb plKeywords = none →
      extract_from_profit_loss_sheet wb = none) ∧
    (∀ wb, find_sheet_by_name wb bsKeywords = none →
      extract_from_balance_sheet wb = none) ∧
    (∀ wb, find_sheet_by_name wb cfKeywords = none →
      extract_from_cash_flow_sheet wb = none) ∧
    (∀ wb, find_sheet_by_name wb qKeywords = none →
      extract_from_quarters_sheet wb = none) ∧
    (∀ wb, find_sheet_by_name wb dataKeywords = none →
      extract_from_data_sheet wb = none) := by
  refine ⟨rfl, ?_, ?_, ?_, ?_, ?_, ?_⟩
  · intro file h
    unfold extract_all_data
    rw [h]
  · intro wb h
    unfold extract_from_profit_loss_sheet
    rw [h]
  · intro wb h
    unfold extract_from_balance_sheet
    rw [h]
  · intro wb h
    unfold extract_from_cash_flow_sheet
    rw [h]
  · intro wb h
    unfold extract_from_quarters_sheet
    rw [h]
  · intro wb h
    unfold extract_from_data_sheet
    rw [h]

/-- Witness for C7: the empty workbook fails to load and extracts to the
empty document. -/
theorem c7_io_degradation_witness :
    load_workbook (some []) = none ∧ extract_all_data (some []) = none :=
  ⟨by decide, c7_io_degradation.2.1 (some []) (by decide)⟩

/-! ## Claim C8: header-row locator threshold -/

/-- C8: scanning rows top-to-bottom, the annual locator returns the index of
the first row with at least 3 year-like cells and the quarterly locator the
first row with at least 4 quarter-like cells; with no qualifying row they
return `none`, and the role extraction yields the empty result. -/
theorem c8_header_row_locator :
    (∀ rows i, find_year_row rows = some i ↔
      (i < rows.length ∧ 3 ≤ yearCellCount (rows.getD i []) ∧
        ∀ j, j < i → yearCellCount (rows.getD j []) < 3)) ∧
    (∀ rows, find_year_row rows = none ↔ ∀ row ∈ rows, yearCellCount row < 3) ∧
    (∀ rows i, find_quarter_row rows = some i ↔
      (i < rows.length ∧ 4 ≤ (rowQuarters (rows.getD i [])).length ∧
        ∀ j, j < i → (rowQuarters (rows.getD j [])).length < 4)) ∧
    (∀ rows, find_quarter_row rows = none ↔ ∀ row ∈ rows, (rowQuarters row).length < 4) ∧
    (∀ wb sheet, find_sheet_by_name wb plKeywords = some sheet →
      find_year_row sheet.rows = none → extract_from_profit_loss_sheet wb = none) ∧
    (∀ wb sheet, find_sheet_by_name wb qKeywords = some sheet →
      find_quarter_row sheet.rows = none → extract_from_quarters_sheet wb = none) := by
  refine ⟨?_, ?_, ?_, ?_, ?_, ?_⟩
  · intro rows i
    unfold find_year_row
    rw [findIdx?_eq_some_char ([] : List Cell)]
    simp [not_le]
  · intro rows
    unfold find_year_row
    rw [List.findIdx?_eq_none_iff]
    simp [not_le]
  · intro rows i
    unfold find_quarter_row
    rw [findIdx?_eq_some_char ([] : List Cell)]
    simp [not_le]
  · intro rows
    unfold find_quarter_row
    rw [List.findIdx?_eq_none_iff]
    simp [not_le]
  · intro wb sheet hs hy
    unfold extract_from_profit_loss_sheet
    rw [hs]
    dsimp only
    rw [hy]
  · intro wb sheet hs hq
    unfold extract_from_quarters_sheet
    rw [hs]
    dsimp only
    rw [hq]

/-- Witness for C8: the annual locator skips a non-qualifying row and stops at
the first row holding three year-like cells. -/
theorem c8_header_row_locator_witness :
    find_year_row [[Cell.text "x"], [Cell.int 2020, Cell.int 2021, Cell.text "2022"]] =
      some 1 :=
  (c8_header_row_locator.1 [[Cell.text "x"], [Cell.int 2020, Cell.int 2021, Cell.text "2022"]]
    1).mpr (by decide)

/-! ## Claim C9: CAGR computation -/

def c9Series : Series := [(2020, 1000), (2021, 1200), (2022, 1440)]

/-- C9: on `{2020: 1000, 2021: 1200, 2022: 1440}` with no period restriction
the CAGR is `((1440/1000)^(1/2) - 1) * 100 = 20.0` (exact after rounding to 2
decimals); and whenever the chronologically first or last value in play is
non-positive, the function returns `0.0`. -/
theorem c9_cagr :
    calculate_cagr c9Series none = 20 ∧
    (∀ values yp, cagrStart values yp ≤ 0 ∨ cagrEnd values yp ≤ 0 →
      calculate_cagr values yp = 0) := by
  constructor
  · have hs : cagrStart c9Series none = 1000 := by decide
    have he : cagrEnd c9Series none = 1440 := by decide
    have hn : cagrSpan c9Series none = 2 := by decide
    unfold calculate_cagr
    rw [if_neg (by decide), if_neg (by decide)]
    dsimp only
    rw [hs, he, hn]
    rw [if_neg (by norm_num)]
    have hbase : ((1440 : ℚ) : ℝ) / ((1000 : ℚ) : ℝ) = ((6 / 5 : ℝ)) ^ (2 : ℕ) := by
      push_cast
      norm_num
    rw [hbase]
    have h2 : (1 : ℝ) / ((2 : ℕ) : ℝ) = 2⁻¹ := by norm_num
    rw [h2]
    rw [← Real.rpow_natCast (6 / 5 : ℝ) 2]
    rw [← Real.rpow_mul (by norm_num : (0 : ℝ) ≤ 6 / 5)]
    norm_num
    unfold round2
    rw [show ((20 : ℝ) * 100) = ((2000 : ℤ) : ℝ) by norm_num, round_intCast]
    norm_num
  · intro values yp h
    unfold calculate_cagr
    split
    · rfl
    · split
      · rfl
      · dsimp only
        have hc : cagrStart values yp ≤ 0 ∨ cagrEnd values yp ≤ 0 ∨ cagrSpan values yp = 0 :=
          h.elim Or.inl (fun h2 => Or.inr (Or.inl h2))
        rw [if_pos hc]

/-- Witness for C9 at a series with a non-positive starting value. -/
theorem c9_cagr_witness :
    cagrStart [(2020, -1), (2021, 5)] none ≤ 0 ∧
      calculate_cagr [(2020, -1), (2021, 5)] none = 0 :=
  ⟨by decide, c9_cagr.2 [(2020, -1), (2021, 5)] none (Or.inl (by decide))⟩

/-! ## Claim C10: typed-numeric-only series cells -/

/-- C10: a cell contributes a non-zero value to a metric series only when it
is already typed `int`/`float`: every text cell — even one whose text parses
as a number, like `"500"` — contributes `0.0`, whereas the company-metadata
scalar extraction coerces the first cell within 4 positions right of the label
that parses as a float, so the same `"500"` text cell yields `500.0` there. -/
theorem c10_typed_numeric_cells :
    (∀ s : String, cellSeriesValue (Cell.text s) = 0) ∧
    (∀ n : ℤ, cellSeriesValue (Cell.int n) = (n : ℚ)) ∧
    (∀ q : ℚ, cellSeriesValue (Cell.float q) = q) ∧
    extract_numeric_values [Cell.text "Sales", Cell.text "500"] [2021] = [(2021, 0)] ∧
    extractFieldFromRow [Cell.text "Price", Cell.text "500"] = some 500 :=
  ⟨fun _ => rfl, fun _ => rfl, fun _ => rfl, by decide, by decide⟩

end Multibagger
